import Mathlib

/-!
Verification of the Payment Admission & Settlement engine of the x402 gateway.

The definitions below are a shallow embedding of the repository's code:
- `src/src/services/ledger.ts` (credit ledger over the supabase tables),
- `src/src/middleware/payment.ts` (the x402 payment middleware),
- `src/src/server.ts` (wallet resolution, billing middleware, finish listeners),
- `src/src/config/pricing.ts` (the static pricing catalog).

The supabase `credit_balances` table is keyed by wallet and only ever accessed by
point read (`.eq("wallet", w).maybeSingle()`) and keyed upsert
(`onConflict: "wallet"`); it is therefore modelled as its lookup function
`String → Int`, where an absent row reads as 0 exactly as
`data?.balance_micros ?? 0` does.  The two append-only event tables are lists.
Backing-store failures (supabase returning an error object) are not injected:
all claims below are about the failure-free behaviour of the code.
External effects (base64+JSON decoding of the X-PAYMENT header, the facilitator
HTTP verdicts, the downstream handler's status code) enter through an
environment record, since their implementations live outside this repository.
-/

namespace X402

/-- Billing mode recorded on a usage event, `billingMode: "credit" | "payment"`
in `src/src/services/ledger.ts`. -/
inductive BillingMode
  | credit
  | payment
  deriving DecidableEq, Repr

/-- Decoded X-PAYMENT envelope (`paymentPayload` in the middleware).  The JSON
object is treated opaquely; the gateway never inspects its fields. -/
structure PaymentPayload where
  raw : String
  deriving DecidableEq, Repr

/-- Verdict shape of the facilitator verify call. -/
structure VerifyResponse where
  isValid : Bool
  invalidReason : Option String
  payer : Option String
  deriving DecidableEq, Repr

/-- Verdict shape of the facilitator settle call. -/
structure SettleResponse where
  success : Bool
  errorReason : Option String
  payer : Option String
  deriving DecidableEq, Repr

/-- Row of the append-only `payment_events` table. -/
structure PaymentEvent where
  wallet : String
  amountMicros : Int
  resource : String
  paymentPayload : PaymentPayload
  verifyResponse : Option VerifyResponse
  settleResponse : Option SettleResponse
  deriving DecidableEq, Repr

/-- Row of the append-only `usage_events` table.  `metadata` holds the
`requestPath` field the server stores there. -/
structure UsageEvent where
  wallet : String
  amountMicros : Int
  endpoint : String
  billingMode : BillingMode
  description : String
  metadata : Option String
  deriving DecidableEq, Repr

/-- `PaymentRecordInput` of `ledger.ts`. -/
structure PaymentRecordInput where
  wallet : String
  amountMicros : Int
  resource : String
  paymentPayload : PaymentPayload
  verifyResponse : Option VerifyResponse
  settleResponse : Option SettleResponse
  deriving DecidableEq, Repr

/-- `UsageRecordInput` of `ledger.ts`. -/
structure UsageRecordInput where
  wallet : String
  amountMicros : Int
  endpoint : String
  description : String
  billingMode : BillingMode
  metadata : Option String
  deriving DecidableEq, Repr

/-- `CreditCheckResult` of `ledger.ts`. -/
structure CreditCheckResult where
  hasCredit : Bool
  balanceMicros : Int
  deriving DecidableEq, Repr

/-- State of the ledger: `enabled` mirrors `isLedgerEnabled()` (the supabase
client being configured); `balances` is the `credit_balances` table as its
lookup function; the event tables are append-only lists. -/
structure LedgerState where
  enabled : Bool
  balances : String → Int
  paymentEvents : List PaymentEvent
  usageEvents : List UsageEvent

/-- `fetchBalanceMicros` of `ledger.ts`: returns 0 when the client is not
configured, otherwise the stored row or 0 for an unknown wallet. -/
def fetchBalanceMicros (s : LedgerState) (wallet : String) : Int :=
  if s.enabled then s.balances wallet else 0

/-- `hasSufficientCredits` of `ledger.ts`. -/
def hasSufficientCredits (s : LedgerState) (wallet : String) (amountMicros : Int) :
    CreditCheckResult :=
  if s.enabled then
    let balance := fetchBalanceMicros s wallet
    { hasCredit := decide (amountMicros ≤ balance), balanceMicros := balance }
  else
    { hasCredit := false, balanceMicros := 0 }

/-- Keyed upsert into `credit_balances` (`onConflict: "wallet"`): the row for
`wallet` now reads `newBalance`, all other rows are unchanged. -/
def upsertBalance (s : LedgerState) (wallet : String) (newBalance : Int) : LedgerState :=
  { s with balances := fun w => if w = wallet then newBalance else s.balances w }

/-- `incrementBalance` of `ledger.ts`: read the current balance, add `delta`,
upsert the sum. -/
def incrementBalance (s : LedgerState) (wallet : String) (delta : Int) : LedgerState :=
  if s.enabled then
    upsertBalance s wallet (fetchBalanceMicros s wallet + delta)
  else s

/-- `recordPayment` of `ledger.ts`: append a payment event, then increment the
balance by the settled amount. -/
def recordPayment (s : LedgerState) (input : PaymentRecordInput) : LedgerState :=
  if s.enabled then
    let s1 := { s with
      paymentEvents := s.paymentEvents ++
        [{ wallet := input.wallet, amountMicros := input.amountMicros,
           resource := input.resource, paymentPayload := input.paymentPayload,
           verifyResponse := input.verifyResponse,
           settleResponse := input.settleResponse }] }
    incrementBalance s1 input.wallet input.amountMicros
  else s

/-- `consumeCredits` of `ledger.ts`: read the balance, throw
`insufficient_credits` when it is below the amount, otherwise upsert the
difference and append a usage event. -/
def consumeCredits (s : LedgerState) (input : UsageRecordInput) :
    Except String LedgerState :=
  if s.enabled then
    let balance := fetchBalanceMicros s input.wallet
    if balance < input.amountMicros then
      Except.error "insufficient_credits"
    else
      let s1 := upsertBalance s input.wallet (balance - input.amountMicros)
      Except.ok { s1 with
        usageEvents := s1.usageEvents ++
          [{ wallet := input.wallet, amountMicros := input.amountMicros,
             endpoint := input.endpoint, billingMode := input.billingMode,
             description := input.description, metadata := input.metadata }] }
  else
    Except.ok s

/-- Read phase of `consumeCredits`: the `await fetchBalanceMicros(wallet)` that
happens before the check and the write. -/
def consumeCreditsRead (s : LedgerState) (wallet : String) : Int :=
  fetchBalanceMicros s wallet

/-- Check-and-write phase of `consumeCredits`, parameterised by the balance the
read phase observed: the check compares the observed balance against the
amount, and the upsert writes `observed − amount` unconditionally (no
`WHERE balance_micros >= amount` clause). -/
def consumeCreditsWrite (s : LedgerState) (input : UsageRecordInput)
    (balance : Int) : Except String LedgerState :=
  if balance < input.amountMicros then
    Except.error "insufficient_credits"
  else
    let s1 := upsertBalance s input.wallet (balance - input.amountMicros)
    Except.ok { s1 with
      usageEvents := s1.usageEvents ++
        [{ wallet := input.wallet, amountMicros := input.amountMicros,
           endpoint := input.endpoint, billingMode := input.billingMode,
           description := input.description, metadata := input.metadata }] }

theorem consumeCredits_eq_read_write (s : LedgerState) (input : UsageRecordInput)
    (hen : s.enabled = true) :
    consumeCredits s input =
      consumeCreditsWrite s input (consumeCreditsRead s input.wallet) := by
  simp [consumeCredits, consumeCreditsWrite, consumeCreditsRead, hen]

/-- One sequential ledger operation: a credit via `recordPayment` or a debit
attempt via `consumeCredits`. -/
inductive LedgerOp
  | credit (input : PaymentRecordInput)
  | debit (input : UsageRecordInput)
  deriving DecidableEq, Repr

/-- Apply one operation; the flag records whether a debit was admitted
(credits always complete). -/
def applyOp (s : LedgerState) : LedgerOp → LedgerState × Bool
  | LedgerOp.credit input => (recordPayment s input, true)
  | LedgerOp.debit input =>
      match consumeCredits s input with
      | Except.ok s1 => (s1, true)
      | Except.error _ => (s, false)

/-- Run a sequence of operations, returning the final state and the trace of
operations tagged with their success flag. -/
def runOps (s : LedgerState) : List LedgerOp → LedgerState × List (LedgerOp × Bool)
  | [] => (s, [])
  | op :: rest =>
      let step := applyOp s op
      let next := runOps step.1 rest
      (next.1, (op, step.2) :: next.2)

/-- Sum of the credited amounts for wallet `w` in a trace. -/
def creditSum (w : String) : List (LedgerOp × Bool) → Int
  | [] => 0
  | (LedgerOp.credit input, _) :: rest =>
      (if input.wallet = w then input.amountMicros else 0) + creditSum w rest
  | (LedgerOp.debit _, _) :: rest => creditSum w rest

/-- Sum of the successfully debited amounts for wallet `w` in a trace. -/
def debitSum (w : String) : List (LedgerOp × Bool) → Int
  | [] => 0
  | (LedgerOp.debit input, true) :: rest =>
      (if input.wallet = w then input.amountMicros else 0) + debitSum w rest
  | _ :: rest => debitSum w rest

/-- An operation whose credited amount is nonnegative (debits unconstrained). -/
def creditOk : LedgerOp → Bool
  | LedgerOp.credit input => decide (0 ≤ input.amountMicros)
  | LedgerOp.debit _ => true

/-- Ledger with the supabase client configured and no rows yet. -/
def initialLedger : LedgerState :=
  { enabled := true, balances := fun _ => 0, paymentEvents := [], usageEvents := [] }

theorem enabled_applyOp (s : LedgerState) (op : LedgerOp) :
    (applyOp s op).1.enabled = s.enabled := by
  cases op with
  | credit input =>
      by_cases hen : s.enabled = true <;>
        simp [applyOp, recordPayment, incrementBalance, upsertBalance,
          fetchBalanceMicros, hen]
  | debit input =>
      by_cases hen : s.enabled = true
      · by_cases hlt : fetchBalanceMicros s input.wallet < input.amountMicros <;>
          simp [applyOp, consumeCredits, upsertBalance, hen, hlt]
      · simp [applyOp, consumeCredits, hen]

theorem fetch_applyOp_credit (s : LedgerState) (input : PaymentRecordInput)
    (w : String) (hen : s.enabled = true) :
    fetchBalanceMicros (applyOp s (LedgerOp.credit input)).1 w =
      fetchBalanceMicros s w +
        (if input.wallet = w then input.amountMicros else 0) := by
  simp only [applyOp, recordPayment, incrementBalance, upsertBalance,
    fetchBalanceMicros, hen, if_true]
  by_cases hw : w = input.wallet
  · subst hw; simp
  · have hw2 : ¬input.wallet = w := fun h => hw h.symm
    simp [hw, hw2]

theorem runOps_spec (w : String) (ops : List LedgerOp) (s : LedgerState)
    (hen : s.enabled = true) (hnn : 0 ≤ fetchBalanceMicros s w)
    (hc : ∀ op ∈ ops, creditOk op = true) :
    (runOps s ops).1.enabled = true ∧
    fetchBalanceMicros (runOps s ops).1 w =
      fetchBalanceMicros s w + creditSum w (runOps s ops).2 -
        debitSum w (runOps s ops).2 ∧
    0 ≤ fetchBalanceMicros (runOps s ops).1 w := by
  induction ops generalizing s with
  | nil => simp [runOps, creditSum, debitSum, hen, hnn]
  | cons op rest ih =>
    have hcop : creditOk op = true := hc op (List.mem_cons_self op rest)
    have hcrest : ∀ o ∈ rest, creditOk o = true :=
      fun o ho => hc o (List.mem_cons_of_mem op ho)
    cases op with
    | credit input =>
      have hamt : 0 ≤ input.amountMicros := by
        simpa [creditOk] using hcop
      have hen1 : (applyOp s (LedgerOp.credit input)).1.enabled = true := by
        rw [enabled_applyOp]; exact hen
      have hbal : fetchBalanceMicros (applyOp s (LedgerOp.credit input)).1 w =
          fetchBalanceMicros s w +
            (if input.wallet = w then input.amountMicros else 0) :=
        fetch_applyOp_credit s input w hen
      have hnn1 : 0 ≤ fetchBalanceMicros (applyOp s (LedgerOp.credit input)).1 w := by
        rw [hbal]; split <;> omega
      obtain ⟨h1, h2, h3⟩ := ih (applyOp s (LedgerOp.credit input)).1 hen1 hnn1 hcrest
      have hflag : (applyOp s (LedgerOp.credit input)).2 = true := rfl
      refine ⟨?_, ?_, ?_⟩
      · simpa [runOps] using h1
      · simp only [runOps, hflag]
        rw [h2, hbal]
        simp only [creditSum, debitSum]
        omega
      · simpa [runOps] using h3
    | debit input =>
      by_cases hlt : fetchBalanceMicros s input.wallet < input.amountMicros
      · have hstep : applyOp s (LedgerOp.debit input) = (s, false) := by
          simp [applyOp, consumeCredits, hen, hlt]
        obtain ⟨h1, h2, h3⟩ := ih s hen hnn hcrest
        refine ⟨?_, ?_, ?_⟩
        · simpa [runOps, hstep] using h1
        · simp only [runOps, hstep]
          rw [h2]
          simp only [creditSum, debitSum]
        · simpa [runOps, hstep] using h3
      · have hok : consumeCredits s input =
            Except.ok { (upsertBalance s input.wallet
                (fetchBalanceMicros s input.wallet - input.amountMicros)) with
              usageEvents := (upsertBalance s input.wallet
                (fetchBalanceMicros s input.wallet - input.amountMicros)).usageEvents ++
                [{ wallet := input.wallet, amountMicros := input.amountMicros,
                   endpoint := input.endpoint, billingMode := input.billingMode,
                   description := input.description, metadata := input.metadata }] } := by
          simp [consumeCredits, hen, hlt]
        have hstep1 : (applyOp s (LedgerOp.debit input)).2 = true := by
          simp [applyOp, hok]
        have hen1 : (applyOp s (LedgerOp.debit input)).1.enabled = true := by
          rw [enabled_applyOp]; exact hen
        have hbal : fetchBalanceMicros (applyOp s (LedgerOp.debit input)).1 w =
            fetchBalanceMicros s w -
              (if input.wallet = w then input.amountMicros else 0) := by
          simp only [applyOp, hok, fetchBalanceMicros, upsertBalance, hen, if_true]
          by_cases hw : w = input.wallet
          · subst hw; simp [fetchBalanceMicros, hen]
          · have hw2 : ¬input.wallet = w := fun h => hw h.symm
            simp [hw, hw2]
        have hnn1 : 0 ≤ fetchBalanceMicros (applyOp s (LedgerOp.debit input)).1 w := by
          rw [hbal]
          by_cases hw : input.wallet = w
          · subst hw; simp only [if_pos rfl]; omega
          · simp only [if_neg hw]; omega
        obtain ⟨h1, h2, h3⟩ := ih (applyOp s (LedgerOp.debit input)).1 hen1 hnn1 hcrest
        refine ⟨?_, ?_, ?_⟩
        · simpa [runOps] using h1
        · simp only [runOps, hstep1]
          rw [h2, hbal]
          simp only [creditSum, debitSum]
          omega
        · simpa [runOps] using h3

/-- Opaque payload used for concrete inputs. -/
def demoPayload : PaymentPayload := { raw := "x" }

/-- Concrete credit input of the given amount. -/
def demoCredit (amount : Int) : PaymentRecordInput :=
  { wallet := "alice", amountMicros := amount, resource := "/r",
    paymentPayload := demoPayload, verifyResponse := none, settleResponse := none }

/-- Concrete debit input of the given amount. -/
def demoDebit (amount : Int) : UsageRecordInput :=
  { wallet := "alice", amountMicros := amount, endpoint := "POST /r",
    description := "d", billingMode := BillingMode.credit, metadata := none }

/-- Concrete operation list: credit 100, debit 30, failed debit 200, credit 5,
debit 75. -/
def demoOps : List LedgerOp :=
  [LedgerOp.credit (demoCredit 100), LedgerOp.debit (demoDebit 30),
   LedgerOp.debit (demoDebit 200), LedgerOp.credit (demoCredit 5),
   LedgerOp.debit (demoDebit 75)]

/-- C1: for every wallet, after any sequence of credits (recordPayment) and
debit attempts (consumeCredits) starting from the fresh ledger, the stored
balance returned by fetchBalanceMicros equals the sum of the credited amounts
minus the sum of the successfully debited amounts, the balance is never
negative, and a debit is never admitted when the balance at the instant of
check is below the debit amount. -/
theorem C1_balance_sum (w : String) (ops : List LedgerOp)
    (hc : ∀ op ∈ ops, creditOk op = true) :
    fetchBalanceMicros (runOps initialLedger ops).1 w =
      creditSum w (runOps initialLedger ops).2 -
        debitSum w (runOps initialLedger ops).2 ∧
    0 ≤ fetchBalanceMicros (runOps initialLedger ops).1 w ∧
    ∀ (s : LedgerState) (input : UsageRecordInput), s.enabled = true →
      fetchBalanceMicros s input.wallet < input.amountMicros →
      consumeCredits s input = Except.error "insufficient_credits" := by
  have hen : initialLedger.enabled = true := rfl
  have hnn : 0 ≤ fetchBalanceMicros initialLedger w := by
    simp [initialLedger, fetchBalanceMicros]
  obtain ⟨_, h2, h3⟩ := runOps_spec w ops initialLedger hen hnn hc
  refine ⟨?_, h3, ?_⟩
  · rw [h2]
    simp [initialLedger, fetchBalanceMicros]
  · intro s input hsen hlt
    simp [consumeCredits, hsen, hlt]

theorem C1_balance_sum_witness :
    (∀ op ∈ demoOps, creditOk op = true) ∧
    (fetchBalanceMicros (runOps initialLedger demoOps).1 "alice" =
        creditSum "alice" (runOps initialLedger demoOps).2 -
          debitSum "alice" (runOps initialLedger demoOps).2 ∧
      0 ≤ fetchBalanceMicros (runOps initialLedger demoOps).1 "alice" ∧
      ∀ (s : LedgerState) (input : UsageRecordInput), s.enabled = true →
        fetchBalanceMicros s input.wallet < input.amountMicros →
        consumeCredits s input = Except.error "insufficient_credits") ∧
    fetchBalanceMicros (runOps initialLedger demoOps).1 "alice" = 0 ∧
    (runOps initialLedger demoOps).2.map Prod.snd = [true, true, false, true, true] :=
  ⟨by decide, C1_balance_sum "alice" demoOps (by decide), by decide, by decide⟩

/-- Wallet alice holding 100000 micros, the starting point of the interleaved
debit schedule. -/
def overdrawStart : LedgerState :=
  { enabled := true, balances := fun w => if w = "alice" then 100000 else 0,
    paymentEvents := [], usageEvents := [] }

/-- First of the two concurrent debit attempts (60000 micros each). -/
def debitInputA : UsageRecordInput :=
  { wallet := "alice", amountMicros := 60000,
    endpoint := "POST /openai/chat/completions",
    description := "OpenAI chat completions", billingMode := BillingMode.credit,
    metadata := none }

/-- Second of the two concurrent debit attempts. -/
def debitInputB : UsageRecordInput :=
  { wallet := "alice", amountMicros := 60000,
    endpoint := "POST /openai/chat/completions",
    description := "OpenAI chat completions", billingMode := BillingMode.credit,
    metadata := none }

/-- Interleaving of two concurrent `consumeCredits` calls in which both read
phases observe the starting balance before either write phase runs — the
schedule the event loop admits because the read and the upsert are separate
awaited supabase calls.  Returns the final state when both debits are
admitted, `none` when either is rejected. -/
def interleavedDebits (s : LedgerState) (a b : UsageRecordInput) :
    Option LedgerState :=
  let readA := consumeCreditsRead s a.wallet
  let readB := consumeCreditsRead s b.wallet
  match consumeCreditsWrite s a readA with
  | Except.error _ => none
  | Except.ok s1 =>
    match consumeCreditsWrite s1 b readB with
    | Except.error _ => none
    | Except.ok s2 => some s2

/-- C2: the debit of `consumeCredits` is a read followed by an unconditional
upsert, so two interleaved debits of 60000 micros against a balance of 100000
micros are both admitted, and the second write clobbers the first: the final
balance is 40000 micros although 120000 micros (more than the whole balance)
were successfully debited.  This refutes the claimed atomicity. -/
theorem C2_interleaved_overdraw :
    (interleavedDebits overdrawStart debitInputA debitInputB).map
        (fun s2 => fetchBalanceMicros s2 "alice") = some 40000 ∧
    (interleavedDebits overdrawStart debitInputA debitInputB).map
        (fun s2 => s2.usageEvents.length) = some 2 ∧
    fetchBalanceMicros overdrawStart "alice" <
      debitInputA.amountMicros + debitInputB.amountMicros ∧
    fetchBalanceMicros overdrawStart "alice" -
        (debitInputA.amountMicros + debitInputB.amountMicros) ≠ (40000 : Int) := by
  refine ⟨rfl, rfl, by decide, by decide⟩

/-- `PaymentRouteConfig` of `payment.ts`.  `priceUsd` is a decimal price; the
JS `number` is modelled as a rational, which is exact for the catalog's decimal
literals (every conversion below goes through `Math.round`, whose result on
these prices is unaffected by binary floating-point representation error). -/
structure PaymentRouteConfig where
  priceUsd : ℚ
  network : String
  description : String
  mimeType : String
  deriving DecidableEq, Repr

/-- Route for POST /openai/completions in `src/src/config/pricing.ts`. -/
def openaiCompletionsRoute : PaymentRouteConfig :=
  { priceUsd := 0.05, network := "solana",
    description := "OpenAI text completions", mimeType := "application/json" }

/-- Route for POST /openai/chat/completions. -/
def openaiChatRoute : PaymentRouteConfig :=
  { priceUsd := 0.06, network := "solana",
    description := "OpenAI chat completions", mimeType := "application/json" }

/-- Route for POST /openai/images/generations. -/
def openaiImagesRoute : PaymentRouteConfig :=
  { priceUsd := 0.15, network := "solana",
    description := "OpenAI image generations", mimeType := "application/json" }

/-- Route for GET /openai/models. -/
def openaiModelsRoute : PaymentRouteConfig :=
  { priceUsd := 0.02, network := "solana",
    description := "OpenAI models listing", mimeType := "application/json" }

/-- `pricingConfig` of `src/src/config/pricing.ts`: the static catalog keyed by
"METHOD path" strings. -/
def pricingConfig : List (String × PaymentRouteConfig) :=
  [("POST /openai/completions", openaiCompletionsRoute),
   ("POST /openai/chat/completions", openaiChatRoute),
   ("POST /openai/images/generations", openaiImagesRoute),
   ("GET /openai/models", openaiModelsRoute)]

/-- ASCII uppercase of one character, the behaviour of JS `toUpperCase` on the
ASCII method/path strings of this gateway. -/
def jsToUpperChar (c : Char) : Char :=
  if 'a' ≤ c ∧ c ≤ 'z' then Char.ofNat (c.toNat - 32) else c

/-- JS `String.prototype.toUpperCase` on ASCII strings. -/
def jsToUpper (s : String) : String := ⟨s.data.map jsToUpperChar⟩

/-- JS `String.prototype.trim`: strip leading and trailing whitespace. -/
def jsTrim (s : String) : String :=
  ⟨((s.data.dropWhile Char.isWhitespace).reverse.dropWhile Char.isWhitespace).reverse⟩

/-- JS `String.prototype.startsWith`. -/
def jsStartsWith (s pat : String) : Bool := pat.data.isPrefixOf s.data

/-- Accumulator loop splitting a character list on whitespace runs. -/
def wordsAux : List Char → List Char → List (List Char)
  | [], acc => if acc = [] then [] else [acc.reverse]
  | c :: cs, acc =>
      if c.isWhitespace then
        if acc = [] then wordsAux cs [] else acc.reverse :: wordsAux cs []
      else wordsAux cs (c :: acc)

/-- JS `split(/\s+/)` on a trimmed string: the nonempty whitespace-separated
tokens. -/
def splitWhitespace (s : String) : List String :=
  (wordsAux s.data []).map fun l => ⟨l⟩

/-- JS `Math.round`: round half toward positive infinity. -/
def jsMathRound (q : ℚ) : Int := ⌊q + 1 / 2⌋

/-- `MICRO_USDC_MULTIPLIER` of `payment.ts`. -/
def MICRO_USDC_MULTIPLIER : ℚ := 1000000

/-- `toMicros` of `server.ts`: `Math.round(amountUsd * 1_000_000)`. -/
def toMicros (amountUsd : ℚ) : Int := jsMathRound (amountUsd * 1000000)

/-- `findRouteConfig` of `server.ts`: exact lookup of
`method.toUpperCase() + " " + path` in the catalog. -/
def findRouteConfig (method path : String) : Option PaymentRouteConfig :=
  (pricingConfig.find? fun entry =>
    decide (entry.1 = jsToUpper method ++ " " ++ path)).map Prod.snd

/-- `RoutePattern` of `payment.ts`. -/
structure RoutePattern where
  method : String
  path : String
  config : PaymentRouteConfig
  deriving DecidableEq, Repr

/-- `compileRoutePatterns` of `payment.ts`: trim the key, split it on runs of
whitespace, uppercase the first token, rejoin the rest with single spaces. -/
def compileRoutePatterns (routes : List (String × PaymentRouteConfig)) :
    List RoutePattern :=
  routes.map fun entry =>
    match splitWhitespace (jsTrim entry.1) with
    | [] => { method := "", path := "", config := entry.2 }
    | m :: rest =>
        { method := jsToUpper m, path := String.intercalate " " rest,
          config := entry.2 }

/-- `matchRoute` of `payment.ts`. -/
def matchRoute (patterns : List RoutePattern) (method path : String) :
    Option RoutePattern :=
  patterns.find? fun p =>
    decide (p.method = jsToUpper method) && decide (p.path = path)

/-- `PaymentRequirements` object built per request; `extra` is flattened into
its two fields, `outputSchema` is always null and omitted. -/
structure PaymentRequirements where
  scheme : String
  network : String
  maxAmountRequired : String
  resource : String
  description : String
  mimeType : String
  payTo : String
  maxTimeoutSeconds : Nat
  asset : String
  extraCurrency : String
  extraPriceUsd : ℚ
  deriving DecidableEq, Repr

/-- Fields of the express request that the payment middleware reads after
wallet resolution. -/
structure RouteRequest where
  method : String
  path : String
  protocol : String
  host : String
  originalUrl : String
  paymentHeader : Option String
  deriving DecidableEq, Repr

/-- Full incoming request: the route fields plus the caller-supplied wallet
identifier carried in the `x402-sender-wallet` header or the `senderWallet`
body field (absent when not a string). -/
structure GatewayRequest extends RouteRequest where
  headerWallet : Option String
  bodyWallet : Option String
  deriving DecidableEq, Repr

/-- `buildPaymentRequirements` of `payment.ts`. -/
def buildPaymentRequirements (req : RouteRequest) (config : PaymentRouteConfig)
    (payTo : String) : PaymentRequirements :=
  let micros := jsMathRound (config.priceUsd * MICRO_USDC_MULTIPLIER)
  { scheme := "exact"
    network := config.network
    maxAmountRequired := toString micros
    resource := req.protocol ++ "://" ++ req.host ++ req.originalUrl
    description := config.description
    mimeType := config.mimeType
    payTo := payTo
    maxTimeoutSeconds := 60
    asset := "USDC"
    extraCurrency := "USDC"
    extraPriceUsd := config.priceUsd }

/-- `FacilitatorAuthConfig` of `payment.ts`. -/
structure FacilitatorAuthConfig where
  url : String
  apiKey : Option String
  deriving DecidableEq, Repr

/-- Result of one facilitator HTTP call: the parsed verdict on a 2xx response,
or the thrown error (non-2xx status or transport failure). -/
inductive FacilitatorResult (α : Type)
  | ok (value : α)
  | failed (message : String)
  deriving DecidableEq, Repr

/-- Per-request external behaviour: the base64+JSON decoding of the X-PAYMENT
header (a platform library call), the facilitator verdicts, and the status the
downstream handler would respond with. -/
structure GatewayEnv where
  decodePayment : String → Option PaymentPayload
  verify : FacilitatorResult VerifyResponse
  settle : FacilitatorResult SettleResponse
  handlerStatus : Nat

/-- `PaymentContext` stashed on `req.x402`. -/
structure PaymentContext where
  paymentPayload : PaymentPayload
  paymentRequirements : PaymentRequirements
  verifyResponse : Option VerifyResponse
  settleResponse : Option SettleResponse
  deriving DecidableEq, Repr

/-- Observable outcome of the payment middleware combined with the downstream
handler: the response the caller sees (status, error field, x402Version field,
accepts array, payer field), how often the handler ran, which external calls
were made, and the stashed payment context. -/
structure MWOutcome where
  status : Nat
  bodyError : Option String
  bodyX402Version : Option Nat
  accepts : List PaymentRequirements
  bodyPayer : Option String
  handlerRuns : Nat
  decodeCalled : Bool
  verifyCalled : Bool
  settleCalled : Bool
  x402 : Option PaymentContext
  deriving DecidableEq, Repr

/-- Outcome of `next()` without any payment processing: the handler runs once
and its response passes through. -/
def passThrough (env : GatewayEnv) : MWOutcome :=
  { status := env.handlerStatus, bodyError := none, bodyX402Version := none,
    accepts := [], bodyPayer := none, handlerRuns := 1, decodeCalled := false,
    verifyCalled := false, settleCalled := false, x402 := none }

/-- The payer-mismatch guard of `payment.ts`:
`typeof payer === "string" && req.senderWallet && payer !== req.senderWallet`. -/
def walletMismatch (payer senderWallet : Option String) : Bool :=
  match payer, senderWallet with
  | some p, some w => decide (w ≠ "") && decide (p ≠ w)
  | _, _ => false

/-- The `!facilitator?.url` guard of `payment.ts` (absent config or falsy —
empty — url). -/
def facilitatorMissing (facilitator : Option FacilitatorAuthConfig) : Bool :=
  match facilitator with
  | none => true
  | some f => decide (f.url = "")

/-- `handlePayment` of `payment.ts`: the request-scoped admission state
machine.  Control flow mirrors the source: credit-funded requests and
non-catalogued routes pass straight through; a missing header produces the 402
challenge; a decode failure produces 402 "Invalid X-PAYMENT header"; a missing
facilitator url produces the 500; verify gates the handler; settlement runs
only after the handler finished below 400, and a failed settlement overrides
the buffered response with a 402. -/
def handlePayment (payTo : String) (routes : List (String × PaymentRouteConfig))
    (facilitator : Option FacilitatorAuthConfig) (env : GatewayEnv)
    (billingMode : Option BillingMode) (senderWallet : Option String)
    (req : RouteRequest) : MWOutcome :=
  if billingMode = some BillingMode.credit then
    passThrough env
  else
    match matchRoute (compileRoutePatterns routes) req.method req.path with
    | none => passThrough env
    | some pat =>
      let paymentRequirements := buildPaymentRequirements req pat.config payTo
      match req.paymentHeader with
      | none =>
          { status := 402, bodyError := some "X-PAYMENT header is required",
            bodyX402Version := some 1, accepts := [paymentRequirements],
            bodyPayer := none, handlerRuns := 0, decodeCalled := false,
            verifyCalled := false, settleCalled := false, x402 := none }
      | some header =>
        match env.decodePayment header with
        | none =>
            { status := 402, bodyError := some "Invalid X-PAYMENT header",
              bodyX402Version := some 1, accepts := [paymentRequirements],
              bodyPayer := none, handlerRuns := 0, decodeCalled := true,
              verifyCalled := false, settleCalled := false, x402 := none }
        | some paymentPayload =>
          if facilitatorMissing facilitator then
            { status := 500, bodyError := some "facilitator_unavailable",
              bodyX402Version := none, accepts := [], bodyPayer := none,
              handlerRuns := 0, decodeCalled := true, verifyCalled := false,
              settleCalled := false, x402 := none }
          else
            match env.verify with
            | FacilitatorResult.failed _ =>
                { status := 402, bodyError := some "payment_verification_failed",
                  bodyX402Version := some 1, accepts := [paymentRequirements],
                  bodyPayer := none, handlerRuns := 0, decodeCalled := true,
                  verifyCalled := true, settleCalled := false, x402 := none }
            | FacilitatorResult.ok verifyResponse =>
              if verifyResponse.isValid = false then
                { status := 402,
                  bodyError := some (verifyResponse.invalidReason.getD "payment_not_verified"),
                  bodyX402Version := some 1, accepts := [paymentRequirements],
                  bodyPayer := verifyResponse.payer, handlerRuns := 0,
                  decodeCalled := true, verifyCalled := true,
                  settleCalled := false, x402 := none }
              else if walletMismatch verifyResponse.payer senderWallet then
                { status := 402, bodyError := some "sender_wallet_mismatch",
                  bodyX402Version := some 1, accepts := [paymentRequirements],
                  bodyPayer := verifyResponse.payer, handlerRuns := 0,
                  decodeCalled := true, verifyCalled := true,
                  settleCalled := false, x402 := none }
              else
                let ctx : PaymentContext :=
                  { paymentPayload := paymentPayload,
                    paymentRequirements := paymentRequirements,
                    verifyResponse := some verifyResponse, settleResponse := none }
                if 400 ≤ env.handlerStatus then
                  { status := env.handlerStatus, bodyError := none,
                    bodyX402Version := none, accepts := [], bodyPayer := none,
                    handlerRuns := 1, decodeCalled := true, verifyCalled := true,
                    settleCalled := false, x402 := some ctx }
                else
                  match env.settle with
                  | FacilitatorResult.failed _ =>
                      { status := 402,
                        bodyError := some "payment_settlement_failed",
                        bodyX402Version := some 1,
                        accepts := [paymentRequirements], bodyPayer := none,
                        handlerRuns := 1, decodeCalled := true,
                        verifyCalled := true, settleCalled := true,
                        x402 := some ctx }
                  | FacilitatorResult.ok settleResponse =>
                    if settleResponse.success = false then
                      { status := 402,
                        bodyError := some (settleResponse.errorReason.getD "settlement_failed"),
                        bodyX402Version := some 1,
                        accepts := [paymentRequirements], bodyPayer := none,
                        handlerRuns := 1, decodeCalled := true,
                        verifyCalled := true, settleCalled := true,
                        x402 := some ctx }
                    else
                      { status := env.handlerStatus, bodyError := none,
                        bodyX402Version := none, accepts := [],
                        bodyPayer := none, handlerRuns := 1,
                        decodeCalled := true, verifyCalled := true,
                        settleCalled := true,
                        x402 := some { ctx with settleResponse := some settleResponse } }

/-- Outcome of the wallet-resolution middleware of `server.ts`: either the 400
`missing_sender_wallet` rejection, or `next()` with `req.senderWallet` set to
the trimmed identifier (left unset on the exempted paths). -/
inductive WalletStep
  | reject400
  | proceed (senderWallet : Option String)
  deriving DecidableEq, Repr

/-- Wallet-resolution middleware of `server.ts` (lines 135-161): paths under
`/facilitator` and the root path pass through untouched; otherwise the header
takes precedence over the body field, a missing or blank value is rejected,
and the accepted value is trimmed. -/
def walletMiddleware (path : String) (headerWallet bodyWallet : Option String) :
    WalletStep :=
  if jsStartsWith path "/facilitator" then WalletStep.proceed none
  else if path = "/" then WalletStep.proceed none
  else
    match headerWallet.orElse (fun _ => bodyWallet) with
    | none => WalletStep.reject400
    | some sw =>
        if jsTrim sw = "" then WalletStep.reject400
        else WalletStep.proceed (some (jsTrim sw))

/-- A `res.once("finish", ...)` listener registered by the billing middleware,
with the values it closed over. -/
inductive FinishListener
  | creditDebit (wallet : String) (priceMicros : Int) (endpoint : String)
      (description : String) (requestPath : String)
  | paymentFinish (wallet : String) (priceMicros : Int) (endpoint : String)
      (description : String) (requestPath : String)
  deriving DecidableEq, Repr

/-- Run the registered finish listener once the response has completed with
`status`.  Both listeners bail out on an error status.  The credit listener
debits the stored balance (a failure is logged and swallowed).  The payment
listener requires a settlement context, then credits via `recordPayment` and
debits the identical amount via `consumeCredits`; a debit failure after the
credit is caught by the trailing `.catch`, leaving the credit in place. -/
def applyFinish (s : LedgerState) (status : Nat) (ctx : Option PaymentContext) :
    Option FinishListener → LedgerState
  | none => s
  | some (FinishListener.creditDebit wallet priceMicros endpoint description requestPath) =>
      if 400 ≤ status then s
      else
        match consumeCredits s
            { wallet := wallet, amountMicros := priceMicros, endpoint := endpoint,
              description := description, billingMode := BillingMode.credit,
              metadata := some requestPath } with
        | Except.ok s1 => s1
        | Except.error _ => s
  | some (FinishListener.paymentFinish wallet priceMicros endpoint description requestPath) =>
      if 400 ≤ status then s
      else
        match ctx with
        | none => s
        | some paymentContext =>
          match paymentContext.settleResponse with
          | none => s
          | some _ =>
            let s1 := recordPayment s
              { wallet := wallet, amountMicros := priceMicros,
                resource := requestPath,
                paymentPayload := paymentContext.paymentPayload,
                verifyResponse := paymentContext.verifyResponse,
                settleResponse := paymentContext.settleResponse }
            match consumeCredits s1
                { wallet := wallet, amountMicros := priceMicros,
                  endpoint := endpoint, description := description,
                  billingMode := BillingMode.payment,
                  metadata := some requestPath } with
            | Except.ok s2 => s2
            | Except.error _ => s1

/-- What a request produced end to end: the response fields the caller sees,
the handler/external-call counters, and whether the billing middleware
performed a pricing lookup. -/
structure RequestResult where
  status : Nat
  bodyError : Option String
  bodyX402Version : Option Nat
  accepts : List PaymentRequirements
  handlerRuns : Nat
  decodeCalled : Bool
  verifyCalled : Bool
  settleCalled : Bool
  pricingLookup : Bool
  deriving DecidableEq, Repr

/-- Project a middleware outcome onto the request result. -/
def outcomeResult (o : MWOutcome) (pricingLookup : Bool) : RequestResult :=
  { status := o.status, bodyError := o.bodyError,
    bodyX402Version := o.bodyX402Version, accepts := o.accepts,
    handlerRuns := o.handlerRuns, decodeCalled := o.decodeCalled,
    verifyCalled := o.verifyCalled, settleCalled := o.settleCalled,
    pricingLookup := pricingLookup }

/-- The 400 `missing_sender_wallet` response. -/
def missingWalletResult (pricingLookup : Bool) : RequestResult :=
  { status := 400, bodyError := some "missing_sender_wallet",
    bodyX402Version := none, accepts := [], handlerRuns := 0,
    decodeCalled := false, verifyCalled := false, settleCalled := false,
    pricingLookup := pricingLookup }

/-- One admitted configuration of the payment guard plus downstream handler
plus finish listener: run `handlePayment`, project the result, then run the
listener against the final response status and payment context. -/
def guardStep (payTo : String) (facilitator : Option FacilitatorAuthConfig)
    (env : GatewayEnv) (mode : Option BillingMode) (sw : Option String)
    (req : RouteRequest) (s : LedgerState) (l : Option FinishListener)
    (pricingLookup : Bool) : RequestResult × LedgerState :=
  (outcomeResult (handlePayment payTo pricingConfig facilitator env mode sw req) pricingLookup,
   applyFinish s (handlePayment payTo pricingConfig facilitator env mode sw req).status
     (handlePayment payTo pricingConfig facilitator env mode sw req).x402 l)

/-- Billing middleware of `server.ts` (lines 163-275) followed by the payment
guard and the downstream handler, for a request whose wallet resolution
already ran: decide credit path vs payment path, register the matching finish
listener, run `handlePayment`, then run the finish listener against the final
response status. -/
def afterWallet (payTo : String) (facilitator : Option FacilitatorAuthConfig)
    (env : GatewayEnv) (s : LedgerState) (req : RouteRequest)
    (senderWallet : Option String) : RequestResult × LedgerState :=
  if jsStartsWith req.path "/facilitator" then
    guardStep payTo facilitator env none senderWallet req s none false
  else
    match findRouteConfig req.method req.path with
    | none => guardStep payTo facilitator env none senderWallet req s none true
    | some routeConfig =>
      match senderWallet with
      | none => (missingWalletResult true, s)
      | some wallet =>
        if s.enabled = false then
          guardStep payTo facilitator env (some BillingMode.payment) (some wallet)
            req s none true
        else if (hasSufficientCredits s wallet (toMicros routeConfig.priceUsd)).hasCredit then
          guardStep payTo facilitator env (some BillingMode.credit) (some wallet)
            req s
            (some (FinishListener.creditDebit wallet (toMicros routeConfig.priceUsd)
              (jsToUpper req.method ++ " " ++ req.path) routeConfig.description
              req.originalUrl)) true
        else
          guardStep payTo facilitator env (some BillingMode.payment) (some wallet)
            req s
            (some (FinishListener.paymentFinish wallet (toMicros routeConfig.priceUsd)
              (jsToUpper req.method ++ " " ++ req.path) routeConfig.description
              req.originalUrl)) true

/-- The whole per-request pipeline of `server.ts`: wallet resolution, billing
decision, payment guard, downstream handler, finish listeners. -/
def processRequest (payTo : String) (facilitator : Option FacilitatorAuthConfig)
    (env : GatewayEnv) (s : LedgerState) (req : GatewayRequest) :
    RequestResult × LedgerState :=
  match walletMiddleware req.toRouteRequest.path req.headerWallet req.bodyWallet with
  | WalletStep.reject400 => (missingWalletResult false, s)
  | WalletStep.proceed senderWallet =>
      afterWallet payTo facilitator env s req.toRouteRequest senderWallet

/-- The pricing catalog with each key split into its method and path, for
quantifying over the catalogued routes. -/
def pricedRoutes : List (String × String × PaymentRouteConfig) :=
  [("POST", "/openai/completions", openaiCompletionsRoute),
   ("POST", "/openai/chat/completions", openaiChatRoute),
   ("POST", "/openai/images/generations", openaiImagesRoute),
   ("GET", "/openai/models", openaiModelsRoute)]

theorem pricedRoutes_find (m p : String) (cfg : PaymentRouteConfig)
    (h : (m, p, cfg) ∈ pricedRoutes) :
    findRouteConfig m p = some cfg ∧
    matchRoute (compileRoutePatterns pricingConfig) m p =
      some { method := m, path := p, config := cfg } := by
  simp only [pricedRoutes, List.mem_cons, List.not_mem_nil, or_false,
    Prod.mk.injEq] at h
  rcases h with ⟨hm, hp, hc⟩ | ⟨hm, hp, hc⟩ | ⟨hm, hp, hc⟩ | ⟨hm, hp, hc⟩ <;>
    (subst hm; subst hp; subst hc; exact ⟨rfl, rfl⟩)

theorem toMicros_completions : toMicros openaiCompletionsRoute.priceUsd = 50000 := by
  rw [toMicros, jsMathRound, Int.floor_eq_iff]
  norm_num [openaiCompletionsRoute]

theorem toMicros_chat : toMicros openaiChatRoute.priceUsd = 60000 := by
  rw [toMicros, jsMathRound, Int.floor_eq_iff]
  norm_num [openaiChatRoute]

theorem toMicros_images : toMicros openaiImagesRoute.priceUsd = 150000 := by
  rw [toMicros, jsMathRound, Int.floor_eq_iff]
  norm_num [openaiImagesRoute]

theorem toMicros_models : toMicros openaiModelsRoute.priceUsd = 20000 := by
  rw [toMicros, jsMathRound, Int.floor_eq_iff]
  norm_num [openaiModelsRoute]

theorem maxAmount_chat :
    toString (jsMathRound (openaiChatRoute.priceUsd * MICRO_USDC_MULTIPLIER)) =
      "60000" := by
  have h : jsMathRound (openaiChatRoute.priceUsd * MICRO_USDC_MULTIPLIER) = 60000 := by
    rw [jsMathRound, Int.floor_eq_iff]
    norm_num [openaiChatRoute, MICRO_USDC_MULTIPLIER]
  rw [h]; rfl

theorem applyFinish_error (s : LedgerState) (status : Nat)
    (ctx : Option PaymentContext) (l : Option FinishListener)
    (h : 400 ≤ status) : applyFinish s status ctx l = s := by
  match l with
  | none => rfl
  | some (FinishListener.creditDebit w pm e d r) => simp [applyFinish, h]
  | some (FinishListener.paymentFinish w pm e d r) => simp [applyFinish, h]

theorem handlePayment_settle_gating (payTo : String)
    (routes : List (String × PaymentRouteConfig))
    (facilitator : Option FacilitatorAuthConfig) (env : GatewayEnv)
    (mode : Option BillingMode) (sw : Option String) (req : RouteRequest)
    (hset : (handlePayment payTo routes facilitator env mode sw req).settleCalled = true) :
    (∃ v, env.verify = FacilitatorResult.ok v ∧ v.isValid = true) ∧
      env.handlerStatus < 400 := by
  unfold handlePayment at hset
  split at hset
  · simp [passThrough] at hset
  · split at hset
    · simp [passThrough] at hset
    · split at hset
      · simp at hset
      · split at hset
        · simp at hset
        · split at hset
          · simp at hset
          · split at hset
            · simp at hset
            · rename_i v heq
              split at hset
              · simp at hset
              · split at hset
                · simp at hset
                · split at hset
                  · rename_i hstat
                    simp at hset
                  · rename_i hstat
                    refine ⟨⟨v, heq, ?_⟩, by omega⟩
                    rename_i hvalid _
                    simpa using hvalid

theorem handlePayment_verify_rejected (payTo : String)
    (routes : List (String × PaymentRouteConfig))
    (facilitator : Option FacilitatorAuthConfig) (env : GatewayEnv)
    (mode : Option BillingMode) (sw : Option String) (req : RouteRequest)
    (v : VerifyResponse)
    (hv : env.verify = FacilitatorResult.ok v) (hinvalid : v.isValid = false) :
    (handlePayment payTo routes facilitator env mode sw req).verifyCalled = false ∨
    ((handlePayment payTo routes facilitator env mode sw req).settleCalled = false ∧
     (handlePayment payTo routes facilitator env mode sw req).status = 402 ∧
     (handlePayment payTo routes facilitator env mode sw req).x402 = none ∧
     (handlePayment payTo routes facilitator env mode sw req).handlerRuns = 0) := by
  unfold handlePayment
  split
  · left; simp [passThrough]
  · split
    · left; simp [passThrough]
    · split
      · left; simp
      · split
        · left; simp
        · split
          · left; simp
          · split
            · rename_i m hm
              rw [hv] at hm; cases hm
            · rename_i v2 heq
              rw [hv] at heq
              injection heq with h
              subst h
              split
              · right; simp
              · rename_i hvalid
                exact absurd hinvalid (by simpa using hvalid)

theorem handlePayment_handler_error (payTo : String)
    (routes : List (String × PaymentRouteConfig))
    (facilitator : Option FacilitatorAuthConfig) (env : GatewayEnv)
    (mode : Option BillingMode) (sw : Option String) (req : RouteRequest)
    (hstat : 400 ≤ env.handlerStatus) :
    (handlePayment payTo routes facilitator env mode sw req).settleCalled = false := by
  unfold handlePayment
  repeat' split
  all_goals simp [passThrough]

theorem gating_leaf (payTo : String)
    (facilitator : Option FacilitatorAuthConfig) (env : GatewayEnv)
    (mode : Option BillingMode) (sw : Option String) (req : RouteRequest)
    (s : LedgerState) (l : Option FinishListener) (b : Bool) :
    ((guardStep payTo facilitator env mode sw req s l b).1.settleCalled = true →
      (∃ v, env.verify = FacilitatorResult.ok v ∧ v.isValid = true) ∧
      env.handlerStatus < 400) ∧
    (∀ v, env.verify = FacilitatorResult.ok v → v.isValid = false →
      (guardStep payTo facilitator env mode sw req s l b).1.verifyCalled = true →
      (guardStep payTo facilitator env mode sw req s l b).1.settleCalled = false ∧
      (guardStep payTo facilitator env mode sw req s l b).2 = s) ∧
    (400 ≤ env.handlerStatus →
      (guardStep payTo facilitator env mode sw req s l b).1.settleCalled = false) := by
  refine ⟨?_, ?_, ?_⟩
  · intro h
    exact handlePayment_settle_gating payTo pricingConfig facilitator env mode sw req
      (by simpa [guardStep, outcomeResult] using h)
  · intro v hv hinv hcalled
    rcases handlePayment_verify_rejected payTo pricingConfig facilitator env mode sw req
        v hv hinv with h | ⟨hs, hst, _, _⟩
    · rw [guardStep, outcomeResult] at hcalled
      rw [h] at hcalled
      cases hcalled
    · refine ⟨by simpa [guardStep, outcomeResult] using hs, ?_⟩
      rw [guardStep]
      rw [hst]
      exact applyFinish_error s 402 _ l (by omega)
  · intro h
    simpa [guardStep, outcomeResult] using
      handlePayment_handler_error payTo pricingConfig facilitator env mode sw req h

theorem afterWallet_gating (payTo : String)
    (facilitator : Option FacilitatorAuthConfig) (env : GatewayEnv)
    (s : LedgerState) (req : RouteRequest) (sw : Option String) :
    ((afterWallet payTo facilitator env s req sw).1.settleCalled = true →
      (∃ v, env.verify = FacilitatorResult.ok v ∧ v.isValid = true) ∧
      env.handlerStatus < 400) ∧
    (∀ v, env.verify = FacilitatorResult.ok v → v.isValid = false →
      (afterWallet payTo facilitator env s req sw).1.verifyCalled = true →
      (afterWallet payTo facilitator env s req sw).1.settleCalled = false ∧
      (afterWallet payTo facilitator env s req sw).2 = s) ∧
    (400 ≤ env.handlerStatus →
      (afterWallet payTo facilitator env s req sw).1.settleCalled = false) := by
  unfold afterWallet
  repeat' split
  all_goals first
    | (refine ⟨?_, ?_, ?_⟩ <;> (simp [missingWalletResult]; done))
    | exact gating_leaf payTo facilitator env _ _ req s _ _

/-- C4: the facilitator settle call happens only after a valid verify verdict
and a sub-400 handler status; a request whose verify verdict is false never
invokes settle and leaves the ledger untouched; a request whose handler ends
in an error status never invokes settle. -/
theorem C4_settle_gating (payTo : String)
    (facilitator : Option FacilitatorAuthConfig) (env : GatewayEnv)
    (s : LedgerState) (req : GatewayRequest) :
    ((processRequest payTo facilitator env s req).1.settleCalled = true →
      (∃ v, env.verify = FacilitatorResult.ok v ∧ v.isValid = true) ∧
      env.handlerStatus < 400) ∧
    (∀ v, env.verify = FacilitatorResult.ok v → v.isValid = false →
      (processRequest payTo facilitator env s req).1.verifyCalled = true →
      (processRequest payTo facilitator env s req).1.settleCalled = false ∧
      (processRequest payTo facilitator env s req).2 = s) ∧
    (400 ≤ env.handlerStatus →
      (processRequest payTo facilitator env s req).1.settleCalled = false) := by
  unfold processRequest
  split
  · refine ⟨?_, ?_, ?_⟩ <;> simp [missingWalletResult]
  · exact afterWallet_gating payTo facilitator env s req.toRouteRequest _

/-- Ledger state with the supabase client not configured. -/
def disabledLedger : LedgerState :=
  { enabled := false, balances := fun _ => 0, paymentEvents := [], usageEvents := [] }

/-- A configured facilitator client. -/
def facConfig : FacilitatorAuthConfig :=
  { url := "http://localhost:3000/facilitator", apiKey := none }

/-- A verify verdict rejecting the payment. -/
def invalidVerify : VerifyResponse :=
  { isValid := false, invalidReason := some "invalid_signature", payer := none }

/-- Environment whose facilitator rejects verification. -/
def c4Env : GatewayEnv :=
  { decodePayment := fun _ => some demoPayload,
    verify := FacilitatorResult.ok invalidVerify,
    settle := FacilitatorResult.failed "unused", handlerStatus := 200 }

/-- Payment-path request to the chat completions route. -/
def c4Req : GatewayRequest :=
  { method := "POST", path := "/openai/chat/completions", protocol := "https",
    host := "x402market.app", originalUrl := "/openai/chat/completions",
    paymentHeader := some "eyJ4NDAyIjoxfQ", headerWallet := some "alice",
    bodyWallet := none }

theorem C4_settle_gating_witness :
    (processRequest "pay" (some facConfig) c4Env disabledLedger c4Req).1.settleCalled = false ∧
    (processRequest "pay" (some facConfig) c4Env disabledLedger c4Req).2 = disabledLedger :=
  (C4_settle_gating "pay" (some facConfig) c4Env disabledLedger c4Req).2.1
    invalidVerify rfl rfl rfl

theorem pricedRoutes_paths : ∀ e ∈ pricedRoutes,
    jsStartsWith e.2.1 "/facilitator" = false ∧ e.2.1 ≠ "/" := by decide

theorem applyFinish_credit_ok (s : LedgerState) (wallet : String) (price : Int)
    (endpoint description requestPath : String) (status : Nat)
    (ctx : Option PaymentContext) (hen : s.enabled = true) (hst : status < 400)
    (hbal : price ≤ fetchBalanceMicros s wallet) :
    (applyFinish s status ctx (some (FinishListener.creditDebit wallet price
        endpoint description requestPath))).paymentEvents = s.paymentEvents ∧
    (applyFinish s status ctx (some (FinishListener.creditDebit wallet price
        endpoint description requestPath))).usageEvents = s.usageEvents ++
      [{ wallet := wallet, amountMicros := price, endpoint := endpoint,
         billingMode := BillingMode.credit, description := description,
         metadata := some requestPath }] := by
  have h1 : ¬400 ≤ status := by omega
  have h2 : ¬fetchBalanceMicros s wallet < price := by omega
  simp [applyFinish, h1, consumeCredits, h2, hen, upsertBalance]

/-- C5: a request to a catalogued route whose wallet holds sufficient stored
credit is admitted on the credit path: the handler runs exactly once, the
response passes through unmodified, the payment middleware performs no decode,
verify or settle and produces no challenge, no payment event is written, and
exactly one usage event with billing mode credit for the route price is
appended after the handler finishes below 400. -/
theorem C5_credit_path (payTo : String) (facilitator : Option FacilitatorAuthConfig)
    (env : GatewayEnv) (s : LedgerState) (req : GatewayRequest) (wallet : String)
    (m p : String) (cfg : PaymentRouteConfig)
    (hroute : (m, p, cfg) ∈ pricedRoutes)
    (hm : req.method = m) (hp : req.path = p)
    (hw : walletMiddleware req.path req.headerWallet req.bodyWallet =
      WalletStep.proceed (some wallet))
    (hen : s.enabled = true)
    (hbal : toMicros cfg.priceUsd ≤ fetchBalanceMicros s wallet)
    (hok : env.handlerStatus < 400) :
    (processRequest payTo facilitator env s req).1.handlerRuns = 1 ∧
    (processRequest payTo facilitator env s req).1.status = env.handlerStatus ∧
    (processRequest payTo facilitator env s req).1.bodyError = none ∧
    (processRequest payTo facilitator env s req).1.decodeCalled = false ∧
    (processRequest payTo facilitator env s req).1.verifyCalled = false ∧
    (processRequest payTo facilitator env s req).1.settleCalled = false ∧
    (processRequest payTo facilitator env s req).2.paymentEvents = s.paymentEvents ∧
    (processRequest payTo facilitator env s req).2.usageEvents = s.usageEvents ++
      [{ wallet := wallet, amountMicros := toMicros cfg.priceUsd,
         endpoint := jsToUpper req.method ++ " " ++ req.path,
         billingMode := BillingMode.credit, description := cfg.description,
         metadata := some req.originalUrl }] := by
  have hfind : findRouteConfig m p = some cfg := (pricedRoutes_find m p cfg hroute).1
  have hnf : jsStartsWith p "/facilitator" = false := (pricedRoutes_paths _ hroute).1
  have hgoal : processRequest payTo facilitator env s req =
      guardStep payTo facilitator env (some BillingMode.credit) (some wallet)
        req.toRouteRequest s
        (some (FinishListener.creditDebit wallet (toMicros cfg.priceUsd)
          (jsToUpper req.method ++ " " ++ req.path) cfg.description
          req.originalUrl)) true := by
    unfold processRequest
    rw [hw]
    unfold afterWallet
    rw [hm, hp, hnf, hfind]
    simp only [Bool.false_eq_true, if_false, hen]
    rw [if_neg (by simp)]
    rw [if_pos (by simp [hasSufficientCredits, hen, decide_eq_true_eq]; exact hbal)]
  rw [hgoal]
  have hpass : handlePayment payTo pricingConfig facilitator env
      (some BillingMode.credit) (some wallet) req.toRouteRequest =
      passThrough env := by
    unfold handlePayment
    rw [if_pos rfl]
  obtain ⟨hpe, hue⟩ := applyFinish_credit_ok s wallet (toMicros cfg.priceUsd)
    (jsToUpper req.method ++ " " ++ req.path) cfg.description req.originalUrl
    env.handlerStatus none hen hok hbal
  refine ⟨?_, ?_, ?_, ?_, ?_, ?_, ?_, ?_⟩ <;>
    simp [guardStep, outcomeResult, hpass, passThrough, hpe, hue]

theorem C5_credit_path_witness :
    (processRequest "pay" (some facConfig) c4Env overdrawStart c4Req).1.handlerRuns = 1 ∧
    (processRequest "pay" (some facConfig) c4Env overdrawStart c4Req).1.status = c4Env.handlerStatus ∧
    (processRequest "pay" (some facConfig) c4Env overdrawStart c4Req).1.bodyError = none ∧
    (processRequest "pay" (some facConfig) c4Env overdrawStart c4Req).1.decodeCalled = false ∧
    (processRequest "pay" (some facConfig) c4Env overdrawStart c4Req).1.verifyCalled = false ∧
    (processRequest "pay" (some facConfig) c4Env overdrawStart c4Req).1.settleCalled = false ∧
    (processRequest "pay" (some facConfig) c4Env overdrawStart c4Req).2.paymentEvents =
      overdrawStart.paymentEvents ∧
    (processRequest "pay" (some facConfig) c4Env overdrawStart c4Req).2.usageEvents =
      overdrawStart.usageEvents ++
      [{ wallet := "alice", amountMicros := toMicros openaiChatRoute.priceUsd,
         endpoint := jsToUpper c4Req.method ++ " " ++ c4Req.path,
         billingMode := BillingMode.credit,
         description := openaiChatRoute.description,
         metadata := some c4Req.originalUrl }] :=
  C5_credit_path "pay" (some facConfig) c4Env overdrawStart c4Req "alice"
    "POST" "/openai/chat/completions" openaiChatRoute
    (by simp [pricedRoutes]) rfl rfl (by decide) rfl
    (by rw [toMicros_chat]; decide) (by decide)

theorem handlePayment_challenge (payTo : String)
    (facilitator : Option FacilitatorAuthConfig) (env : GatewayEnv)
    (sw : Option String) (req : RouteRequest) (m p : String)
    (cfg : PaymentRouteConfig) (hm : req.method = m) (hp : req.path = p)
    (hmr : matchRoute (compileRoutePatterns pricingConfig) m p =
      some { method := m, path := p, config := cfg })
    (hnoheader : req.paymentHeader = none) :
    handlePayment payTo pricingConfig facilitator env (some BillingMode.payment) sw req =
      { status := 402, bodyError := some "X-PAYMENT header is required",
        bodyX402Version := some 1,
        accepts := [buildPaymentRequirements req cfg payTo], bodyPayer := none,
        handlerRuns := 0, decodeCalled := false, verifyCalled := false,
        settleCalled := false, x402 := none } := by
  unfold handlePayment
  rw [if_neg (by simp), hm, hp, hmr, hnoheader]

/-- C6: a request to a catalogued route with no X-PAYMENT header whose wallet
has insufficient stored credit (or whose ledger is disabled) receives HTTP 402
with body fields x402Version 1, an error string, and accepts holding exactly
the freshly built payment requirements, whose maxAmountRequired is the route
price converted to micros rendered as a decimal string; the ledger is left
untouched. -/
theorem C6_challenge_shape (payTo : String)
    (facilitator : Option FacilitatorAuthConfig) (env : GatewayEnv)
    (s : LedgerState) (req : GatewayRequest) (wallet : String) (m p : String)
    (cfg : PaymentRouteConfig)
    (hroute : (m, p, cfg) ∈ pricedRoutes)
    (hm : req.method = m) (hp : req.path = p)
    (hw : walletMiddleware req.path req.headerWallet req.bodyWallet =
      WalletStep.proceed (some wallet))
    (hnoheader : req.paymentHeader = none)
    (hcredit : s.enabled = false ∨
      fetchBalanceMicros s wallet < toMicros cfg.priceUsd) :
    (processRequest payTo facilitator env s req).1.status = 402 ∧
    (processRequest payTo facilitator env s req).1.bodyX402Version = some 1 ∧
    (processRequest payTo facilitator env s req).1.bodyError =
      some "X-PAYMENT header is required" ∧
    (processRequest payTo facilitator env s req).1.accepts =
      [buildPaymentRequirements req.toRouteRequest cfg payTo] ∧
    (buildPaymentRequirements req.toRouteRequest cfg payTo).maxAmountRequired =
      toString (jsMathRound (cfg.priceUsd * MICRO_USDC_MULTIPLIER)) ∧
    (processRequest payTo facilitator env s req).2 = s := by
  have hfind : findRouteConfig m p = some cfg := (pricedRoutes_find m p cfg hroute).1
  have hmatch := (pricedRoutes_find m p cfg hroute).2
  have hnf : jsStartsWith p "/facilitator" = false := (pricedRoutes_paths _ hroute).1
  have hch := handlePayment_challenge payTo facilitator env (some wallet)
    req.toRouteRequest m p cfg hm hp hmatch hnoheader
  by_cases hen : s.enabled = false
  · have hgoal : processRequest payTo facilitator env s req =
        guardStep payTo facilitator env (some BillingMode.payment) (some wallet)
          req.toRouteRequest s none true := by
      unfold processRequest
      rw [hw]
      unfold afterWallet
      rw [hm, hp, hnf, hfind]
      simp only [Bool.false_eq_true, if_false]
      rw [if_pos hen]
    rw [hgoal]
    refine ⟨?_, ?_, ?_, ?_, rfl, ?_⟩ <;>
      simp [guardStep, outcomeResult, hch, applyFinish_error]
  · have hen2 : s.enabled = true := by
      revert hen; cases s.enabled <;> simp
    have hins : fetchBalanceMicros s wallet < toMicros cfg.priceUsd := by
      rcases hcredit with h | h
      · rw [hen2] at h; cases h
      · exact h
    have hgoal : processRequest payTo facilitator env s req =
        guardStep payTo facilitator env (some BillingMode.payment) (some wallet)
          req.toRouteRequest s
          (some (FinishListener.paymentFinish wallet (toMicros cfg.priceUsd)
            (jsToUpper req.method ++ " " ++ req.path) cfg.description
            req.originalUrl)) true := by
      unfold processRequest
      rw [hw]
      unfold afterWallet
      rw [hm, hp, hnf, hfind]
      simp only [Bool.false_eq_true, if_false]
      rw [if_neg hen]
      rw [if_neg (by simp [hasSufficientCredits, hen2, decide_eq_true_eq]; omega)]
    rw [hgoal]
    refine ⟨?_, ?_, ?_, ?_, rfl, ?_⟩ <;>
      simp [guardStep, outcomeResult, hch, applyFinish_error]

/-- Challenge request to the chat route: no X-PAYMENT header. -/
def c6Req : GatewayRequest :=
  { method := "POST", path := "/openai/chat/completions", protocol := "https",
    host := "x402market.app", originalUrl := "/openai/chat/completions",
    paymentHeader := none, headerWallet := some "alice", bodyWallet := none }

theorem C6_challenge_shape_witness :
    ((processRequest "pay" (some facConfig) c4Env disabledLedger c6Req).1.status = 402 ∧
     (processRequest "pay" (some facConfig) c4Env disabledLedger c6Req).1.bodyX402Version = some 1 ∧
     (processRequest "pay" (some facConfig) c4Env disabledLedger c6Req).1.bodyError =
       some "X-PAYMENT header is required" ∧
     (processRequest "pay" (some facConfig) c4Env disabledLedger c6Req).1.accepts =
       [buildPaymentRequirements c6Req.toRouteRequest openaiChatRoute "pay"] ∧
     (buildPaymentRequirements c6Req.toRouteRequest openaiChatRoute "pay").maxAmountRequired =
       toString (jsMathRound (openaiChatRoute.priceUsd * MICRO_USDC_MULTIPLIER)) ∧
     (processRequest "pay" (some facConfig) c4Env disabledLedger c6Req).2 = disabledLedger) ∧
    (buildPaymentRequirements c6Req.toRouteRequest openaiChatRoute "pay").maxAmountRequired =
      "60000" := by
  have h := C6_challenge_shape "pay" (some facConfig) c4Env disabledLedger c6Req
    "alice" "POST" "/openai/chat/completions" openaiChatRoute
    (by simp [pricedRoutes]) rfl rfl (by decide) rfl (Or.inl rfl)
  exact ⟨h, h.2.2.2.2.1.trans maxAmount_chat⟩

/-- C8: when the X-PAYMENT header is present but cannot be decoded to a JSON
envelope, the middleware responds 402 with error "Invalid X-PAYMENT header",
reusing the same freshly built requirements object in accepts, and in
particular never responds 500 for a decode failure. -/
theorem C8_decode_failure_402 (payTo : String)
    (facilitator : Option FacilitatorAuthConfig) (env : GatewayEnv)
    (mode : Option BillingMode) (sw : Option String) (req : RouteRequest)
    (m p : String) (cfg : PaymentRouteConfig) (header : String)
    (hroute : (m, p, cfg) ∈ pricedRoutes)
    (hm : req.method = m) (hp : req.path = p)
    (hmode : mode ≠ some BillingMode.credit)
    (hheader : req.paymentHeader = some header)
    (hdec : env.decodePayment header = none) :
    handlePayment payTo pricingConfig facilitator env mode sw req =
      { status := 402, bodyError := some "Invalid X-PAYMENT header",
        bodyX402Version := some 1,
        accepts := [buildPaymentRequirements req cfg payTo], bodyPayer := none,
        handlerRuns := 0, decodeCalled := true, verifyCalled := false,
        settleCalled := false, x402 := none } ∧
    (handlePayment payTo pricingConfig facilitator env mode sw req).status ≠ 500 := by
  have hmatch := (pricedRoutes_find m p cfg hroute).2
  have h : handlePayment payTo pricingConfig facilitator env mode sw req =
      { status := 402, bodyError := some "Invalid X-PAYMENT header",
        bodyX402Version := some 1,
        accepts := [buildPaymentRequirements req cfg payTo], bodyPayer := none,
        handlerRuns := 0, decodeCalled := true, verifyCalled := false,
        settleCalled := false, x402 := none } := by
    unfold handlePayment
    rw [if_neg hmode, hm, hp, hmatch, hheader]
    dsimp only
    rw [hdec]
  exact ⟨h, by rw [h]; dsimp only; decide⟩

/-- Environment whose decode of the X-PAYMENT header fails (bad base64 or
invalid JSON). -/
def badDecodeEnv : GatewayEnv :=
  { decodePayment := fun _ => none,
    verify := FacilitatorResult.failed "unused",
    settle := FacilitatorResult.failed "unused", handlerStatus := 200 }

theorem C8_decode_failure_402_witness :
    handlePayment "pay" pricingConfig (some facConfig) badDecodeEnv
        (some BillingMode.payment) (some "alice") c4Req.toRouteRequest =
      { status := 402, bodyError := some "Invalid X-PAYMENT header",
        bodyX402Version := some 1,
        accepts := [buildPaymentRequirements c4Req.toRouteRequest openaiChatRoute "pay"],
        bodyPayer := none, handlerRuns := 0, decodeCalled := true,
        verifyCalled := false, settleCalled := false, x402 := none } ∧
    (handlePayment "pay" pricingConfig (some facConfig) badDecodeEnv
        (some BillingMode.payment) (some "alice") c4Req.toRouteRequest).status ≠ 500 :=
  C8_decode_failure_402 "pay" (some facConfig) badDecodeEnv
    (some BillingMode.payment) (some "alice") c4Req.toRouteRequest
    "POST" "/openai/chat/completions" openaiChatRoute "eyJ4NDAyIjoxfQ"
    (by simp [pricedRoutes]) rfl rfl (by decide) rfl rfl

/-- C9 (amended): a missing facilitator URL is not caught at process startup;
when a payment-path request presents a decodable X-PAYMENT header and no
facilitator URL is configured, the middleware answers that request with HTTP
500 facilitator_unavailable.  (Only a facilitator-router initialisation
failure is fatal at startup via process.exit(1) in server.ts.) -/
theorem C9_missing_facilitator_500 (payTo : String)
    (facilitator : Option FacilitatorAuthConfig) (env : GatewayEnv)
    (mode : Option BillingMode) (sw : Option String) (req : RouteRequest)
    (m p : String) (cfg : PaymentRouteConfig) (header : String)
    (payload : PaymentPayload)
    (hroute : (m, p, cfg) ∈ pricedRoutes)
    (hm : req.method = m) (hp : req.path = p)
    (hmode : mode ≠ some BillingMode.credit)
    (hheader : req.paymentHeader = some header)
    (hdec : env.decodePayment header = some payload)
    (hfac : facilitatorMissing facilitator = true) :
    handlePayment payTo pricingConfig facilitator env mode sw req =
      { status := 500, bodyError := some "facilitator_unavailable",
        bodyX402Version := none, accepts := [], bodyPayer := none,
        handlerRuns := 0, decodeCalled := true, verifyCalled := false,
        settleCalled := false, x402 := none } := by
  have hmatch := (pricedRoutes_find m p cfg hroute).2
  unfold handlePayment
  rw [if_neg hmode, hm, hp, hmatch, hheader]
  dsimp only
  rw [hdec]
  dsimp only
  rw [if_pos hfac]

/-- Environment with a decodable payment header. -/
def okDecodeEnv : GatewayEnv :=
  { decodePayment := fun _ => some demoPayload,
    verify := FacilitatorResult.failed "unused",
    settle := FacilitatorResult.failed "unused", handlerStatus := 200 }

theorem C9_missing_facilitator_500_witness :
    handlePayment "pay" pricingConfig none okDecodeEnv
        (some BillingMode.payment) (some "alice") c4Req.toRouteRequest =
      { status := 500, bodyError := some "facilitator_unavailable",
        bodyX402Version := none, accepts := [], bodyPayer := none,
        handlerRuns := 0, decodeCalled := true, verifyCalled := false,
        settleCalled := false, x402 := none } :=
  C9_missing_facilitator_500 "pay" none okDecodeEnv
    (some BillingMode.payment) (some "alice") c4Req.toRouteRequest
    "POST" "/openai/chat/completions" openaiChatRoute "eyJ4NDAyIjoxfQ"
    demoPayload (by simp [pricedRoutes]) rfl rfl (by decide) rfl rfl rfl

/-- C9 (counterexample): the configuration error of a missing facilitator URL
IS surfaced as a per-request error response: a payment-path request with a
decodable header receives HTTP 500 facilitator_unavailable from the payment
middleware, refuting "never surfaced as a per-request error response". -/
theorem C9_per_request_500_counterexample :
    (handlePayment "pay" pricingConfig none okDecodeEnv
        (some BillingMode.payment) (some "alice") c4Req.toRouteRequest).status = 500 ∧
    (handlePayment "pay" pricingConfig none okDecodeEnv
        (some BillingMode.payment) (some "alice") c4Req.toRouteRequest).bodyError =
      some "facilitator_unavailable" :=
  ⟨rfl, rfl⟩

theorem walletMiddleware_trim (path : String) (h1 h2 : String)
    (b : Option String) (ht : jsTrim h1 = jsTrim h2) :
    walletMiddleware path (some h1) b = walletMiddleware path (some h2) b := by
  unfold walletMiddleware Option.orElse
  try dsimp only
  rw [ht]

theorem walletMiddleware_header_first (path h : String) (b1 b2 : Option String) :
    walletMiddleware path (some h) b1 = walletMiddleware path (some h) b2 := rfl

theorem walletMiddleware_trim_body (path : String) (b1 b2 : String)
    (ht : jsTrim b1 = jsTrim b2) :
    walletMiddleware path none (some b1) = walletMiddleware path none (some b2) := by
  unfold walletMiddleware Option.orElse
  try dsimp only
  rw [ht]

/-- C10: the resolved sender wallet is the whitespace-trimmed supplied value,
the header takes precedence over the body field, and two requests whose
supplied wallet identifiers — whether carried in the x402-sender-wallet header
or in the senderWallet body field — differ only in surrounding whitespace
produce the identical response and the identical ledger state: every balance
read, debit and credit is attributed to the same wallet record. -/
theorem C10_wallet_normalisation :
    (∀ (payTo : String) (facilitator : Option FacilitatorAuthConfig)
       (env : GatewayEnv) (s : LedgerState) (req : GatewayRequest)
       (h1 h2 : String), jsTrim h1 = jsTrim h2 →
       processRequest payTo facilitator env s { req with headerWallet := some h1 } =
       processRequest payTo facilitator env s { req with headerWallet := some h2 }) ∧
    (∀ (payTo : String) (facilitator : Option FacilitatorAuthConfig)
       (env : GatewayEnv) (s : LedgerState) (req : GatewayRequest) (h : String)
       (b1 b2 : Option String),
       processRequest payTo facilitator env s
         { req with headerWallet := some h, bodyWallet := b1 } =
       processRequest payTo facilitator env s
         { req with headerWallet := some h, bodyWallet := b2 }) ∧
    (∀ (payTo : String) (facilitator : Option FacilitatorAuthConfig)
       (env : GatewayEnv) (s : LedgerState) (req : GatewayRequest)
       (b1 b2 : String), jsTrim b1 = jsTrim b2 →
       processRequest payTo facilitator env s
         { req with headerWallet := none, bodyWallet := some b1 } =
       processRequest payTo facilitator env s
         { req with headerWallet := none, bodyWallet := some b2 }) := by
  refine ⟨?_, ?_, ?_⟩
  · intro payTo facilitator env s req h1 h2 ht
    unfold processRequest
    try dsimp only
    rw [walletMiddleware_trim req.toRouteRequest.path h1 h2 req.bodyWallet ht]
  · intro payTo facilitator env s req h b1 b2
    unfold processRequest
    try dsimp only
    rw [walletMiddleware_header_first req.toRouteRequest.path h b1 b2]
  · intro payTo facilitator env s req b1 b2 ht
    unfold processRequest
    try dsimp only
    rw [walletMiddleware_trim_body req.toRouteRequest.path b1 b2 ht]

theorem C10_wallet_normalisation_witness :
    jsTrim "  alice " = jsTrim "alice" ∧
    (processRequest "pay" (some facConfig) c4Env overdrawStart
        { c4Req with headerWallet := some "  alice " } =
      processRequest "pay" (some facConfig) c4Env overdrawStart
        { c4Req with headerWallet := some "alice" }) ∧
    (processRequest "pay" (some facConfig) c4Env overdrawStart
        { c4Req with headerWallet := some "alice", bodyWallet := some "bob" } =
      processRequest "pay" (some facConfig) c4Env overdrawStart
        { c4Req with headerWallet := some "alice", bodyWallet := none }) ∧
    jsTrim " bob  " = jsTrim "bob" ∧
    (processRequest "pay" (some facConfig) c4Env overdrawStart
        { c4Req with headerWallet := none, bodyWallet := some " bob  " } =
      processRequest "pay" (some facConfig) c4Env overdrawStart
        { c4Req with headerWallet := none, bodyWallet := some "bob" }) :=
  ⟨by decide,
   C10_wallet_normalisation.1 "pay" (some facConfig) c4Env overdrawStart c4Req
     "  alice " "alice" (by decide),
   C10_wallet_normalisation.2.1 "pay" (some facConfig) c4Env overdrawStart c4Req
     "alice" (some "bob") none,
   by decide,
   C10_wallet_normalisation.2.2 "pay" (some facConfig) c4Env overdrawStart c4Req
     " bob  " "bob" (by decide)⟩

theorem recordPayment_parts (s : LedgerState) (input : PaymentRecordInput)
    (w : String) (hen : s.enabled = true) :
    (recordPayment s input).enabled = true ∧
    (recordPayment s input).paymentEvents = s.paymentEvents ++
      [{ wallet := input.wallet, amountMicros := input.amountMicros,
         resource := input.resource, paymentPayload := input.paymentPayload,
         verifyResponse := input.verifyResponse,
         settleResponse := input.settleResponse }] ∧
    (recordPayment s input).usageEvents = s.usageEvents ∧
    fetchBalanceMicros (recordPayment s input) w =
      fetchBalanceMicros s w +
        (if input.wallet = w then input.amountMicros else 0) := by
  refine ⟨?_, ?_, ?_, ?_⟩
  · simp [recordPayment, incrementBalance, upsertBalance, fetchBalanceMicros, hen]
  · simp [recordPayment, incrementBalance, upsertBalance, fetchBalanceMicros, hen]
  · simp [recordPayment, incrementBalance, upsertBalance, fetchBalanceMicros, hen]
  · simp only [recordPayment, incrementBalance, upsertBalance,
      fetchBalanceMicros, hen, if_true]
    by_cases hw : w = input.wallet
    · subst hw; simp
    · have hw2 : ¬input.wallet = w := fun h => hw h.symm
      simp [hw, hw2]

theorem consumeCredits_ok_parts (s : LedgerState) (input : UsageRecordInput)
    (hen : s.enabled = true)
    (hge : ¬fetchBalanceMicros s input.wallet < input.amountMicros) :
    consumeCredits s input = Except.ok
      { enabled := s.enabled,
        balances := fun w => if w = input.wallet then
          fetchBalanceMicros s input.wallet - input.amountMicros else s.balances w,
        paymentEvents := s.paymentEvents,
        usageEvents := s.usageEvents ++
          [{ wallet := input.wallet, amountMicros := input.amountMicros,
             endpoint := input.endpoint, billingMode := input.billingMode,
             description := input.description, metadata := input.metadata }] } := by
  simp [consumeCredits, hen, hge, upsertBalance]

/-- C3: after a successful settlement the payment finish listener credits the
wallet with the route price via recordPayment (appending one payment event)
and then debits the identical amount via consumeCredits (appending one usage
event with billing mode payment), so the wallet's stored balance is unchanged
while both event records are appended. -/
theorem C3_settlement_net_zero (s : LedgerState) (wallet : String)
    (priceMicros : Int) (endpoint description requestPath : String)
    (ctx : PaymentContext) (st : SettleResponse) (status : Nat)
    (hen : s.enabled = true) (hb : 0 ≤ fetchBalanceMicros s wallet)
    (_hp : 0 ≤ priceMicros) (hstatus : status < 400)
    (hctx : ctx.settleResponse = some st) :
    fetchBalanceMicros (applyFinish s status (some ctx)
        (some (FinishListener.paymentFinish wallet priceMicros endpoint
          description requestPath))) wallet = fetchBalanceMicros s wallet ∧
    (applyFinish s status (some ctx)
        (some (FinishListener.paymentFinish wallet priceMicros endpoint
          description requestPath))).paymentEvents = s.paymentEvents ++
      [{ wallet := wallet, amountMicros := priceMicros,
         resource := requestPath, paymentPayload := ctx.paymentPayload,
         verifyResponse := ctx.verifyResponse,
         settleResponse := ctx.settleResponse }] ∧
    (applyFinish s status (some ctx)
        (some (FinishListener.paymentFinish wallet priceMicros endpoint
          description requestPath))).usageEvents = s.usageEvents ++
      [{ wallet := wallet, amountMicros := priceMicros, endpoint := endpoint,
         billingMode := BillingMode.payment, description := description,
         metadata := some requestPath }] := by
  have h1 : ¬400 ≤ status := by omega
  obtain ⟨hen1, hpe1, hue1, hbal1⟩ := recordPayment_parts s
    { wallet := wallet, amountMicros := priceMicros, resource := requestPath,
      paymentPayload := ctx.paymentPayload, verifyResponse := ctx.verifyResponse,
      settleResponse := some st } wallet hen
  have hbal1w : fetchBalanceMicros (recordPayment s
      { wallet := wallet, amountMicros := priceMicros, resource := requestPath,
        paymentPayload := ctx.paymentPayload,
        verifyResponse := ctx.verifyResponse,
        settleResponse := some st }) wallet =
      fetchBalanceMicros s wallet + priceMicros := by
    rw [hbal1]; simp
  have hge : ¬fetchBalanceMicros (recordPayment s
      { wallet := wallet, amountMicros := priceMicros, resource := requestPath,
        paymentPayload := ctx.paymentPayload,
        verifyResponse := ctx.verifyResponse,
        settleResponse := some st }) wallet < priceMicros := by
    rw [hbal1w]; omega
  have hcc := consumeCredits_ok_parts (recordPayment s
      { wallet := wallet, amountMicros := priceMicros, resource := requestPath,
        paymentPayload := ctx.paymentPayload,
        verifyResponse := ctx.verifyResponse,
        settleResponse := some st })
    { wallet := wallet, amountMicros := priceMicros, endpoint := endpoint,
      description := description, billingMode := BillingMode.payment,
      metadata := some requestPath } hen1 hge
  unfold applyFinish
  dsimp only
  rw [if_neg h1]
  rw [hctx]
  dsimp only
  rw [hcc]
  dsimp only
  refine ⟨?_, ?_, ?_⟩
  · rw [fetchBalanceMicros]
    dsimp only
    rw [hen1]
    simp only [if_true, if_pos rfl]
    rw [hbal1w]
    omega
  · rw [hpe1]
  · rw [hue1]

/-- A successful settle verdict. -/
def demoSettle : SettleResponse :=
  { success := true, errorReason := none, payer := some "alice" }

/-- A valid verify verdict. -/
def demoVerifyOk : VerifyResponse :=
  { isValid := true, invalidReason := none, payer := some "alice" }

/-- A payment context after a successful settlement. -/
def demoCtx : PaymentContext :=
  { paymentPayload := demoPayload,
    paymentRequirements :=
      buildPaymentRequirements c4Req.toRouteRequest openaiChatRoute "pay",
    verifyResponse := some demoVerifyOk, settleResponse := some demoSettle }

theorem C3_settlement_net_zero_witness :
    fetchBalanceMicros (applyFinish overdrawStart 200 (some demoCtx)
        (some (FinishListener.paymentFinish "alice" 60000
          "POST /openai/chat/completions" "OpenAI chat completions"
          "/openai/chat/completions"))) "alice" =
      fetchBalanceMicros overdrawStart "alice" ∧
    (applyFinish overdrawStart 200 (some demoCtx)
        (some (FinishListener.paymentFinish "alice" 60000
          "POST /openai/chat/completions" "OpenAI chat completions"
          "/openai/chat/completions"))).paymentEvents =
      overdrawStart.paymentEvents ++
      [{ wallet := "alice", amountMicros := 60000,
         resource := "/openai/chat/completions",
         paymentPayload := demoCtx.paymentPayload,
         verifyResponse := demoCtx.verifyResponse,
         settleResponse := demoCtx.settleResponse }] ∧
    (applyFinish overdrawStart 200 (some demoCtx)
        (some (FinishListener.paymentFinish "alice" 60000
          "POST /openai/chat/completions" "OpenAI chat completions"
          "/openai/chat/completions"))).usageEvents =
      overdrawStart.usageEvents ++
      [{ wallet := "alice", amountMicros := 60000,
         endpoint := "POST /openai/chat/completions",
         billingMode := BillingMode.payment,
         description := "OpenAI chat completions",
         metadata := some "/openai/chat/completions" }] :=
  C3_settlement_net_zero overdrawStart "alice" 60000
    "POST /openai/chat/completions" "OpenAI chat completions"
    "/openai/chat/completions" demoCtx demoSettle 200
    rfl (by decide) (by decide) (by decide) rfl

end X402
